import Mathlib

/-!
Shallow embedding of the wynngrid backend account-lifecycle routes
(signup, verify-otp, login, forgot-password, reset-password,
delete-account, google-signup) and of the password validator, together
with theorems settling the specification claims about them.

The routes are embedded as pure functions from an explicit database
state (plus the values the route reads from its collaborators: the
current time, the random draw used for OTP generation, and success
flags for the mailer and the storage transaction) to the new database
state paired with the HTTP response.
-/

namespace Wynngrid

/-- JavaScript truthiness of an optional string field: `undefined`/absent
and the empty string are falsy, every other string is truthy. -/
def truthy : Option String → Bool
  | none => false
  | some s => s ≠ ""

/-- The JavaScript idiom `s || ''` applied to a string: yields `''` when
`s` is falsy (empty) and `s` otherwise. -/
def jsOrEmpty (s : String) : String :=
  if s = "" then "" else s

/-- One of the symbols `@ $ ! % * ? &` allowed by the password regex. -/
def allowedSymbol (c : Char) : Bool :=
  c = '@' || c = '$' || c = '!' || c = '%' || c = '*' || c = '?' || c = '&'

/-- A character of the password alphabet `[A-Za-z\d@$!%*?&]`. -/
def allowedChar (c : Char) : Bool :=
  c.isLower || c.isUpper || c.isDigit || allowedSymbol c

/-- Embedding of `validatePassword`: the regex
`^(?=.*[a-z])(?=.*[A-Z])(?=.*\d)(?=.*[@$!%*?&])[A-Za-z\d@$!%*?&]{6,}$`
demands a lowercase letter, an uppercase letter, a digit, an allowed
symbol, that every character belongs to the allowed alphabet, and at
least 6 characters. -/
def validatePassword (password : String) : Bool :=
  password.data.any (fun c => c.isLower)
    && password.data.any (fun c => c.isUpper)
    && password.data.any (fun c => c.isDigit)
    && password.data.any allowedSymbol
    && password.data.all allowedChar
    && decide (6 ≤ password.length)

/-- The single rejection message used by both signup and reset-password. -/
def passwordPolicyMessage : String :=
  "Password must be at least 6 characters long and include at least one uppercase letter, one lowercase letter, one special character, and one number."

/-- Modelled from the spec: `bcrypt.hash` is an external collaborator
(the spec only requires an irreversible hash); we model it as an
injective tagging function.  The only properties used are that hashing
is deterministic and that a hash is never the empty string (a real
bcrypt hash is a 60-character string). -/
def bhash (password : String) : String :=
  "$2b$10$" ++ password

/-- Modelled from the spec: `bcrypt.compare password hash` succeeds
exactly when `hash` is the hash of `password`; in particular it always
fails against an empty stored hash. -/
def bcryptCompare (password hash : String) : Bool :=
  hash = bhash password

/-- Modelled from the spec: a signed session token, `jwt.sign` bound to
the account identifier with an expiry window in hours. -/
structure Token where
  userId : Nat
  validityHours : Nat
deriving DecidableEq

/-- A row of the prisma `user` table, restricted to the fields the
routes read or write.  `otp` and `otpExpiry` are nullable; `otpExpiry`
is a millisecond timestamp. -/
structure User where
  id : Nat
  email : String
  firstName : String
  lastName : String
  password : String
  isVerified : Bool
  otp : Option String
  otpExpiry : Option Nat
deriving DecidableEq

/-- A row of the prisma `profile` table (keyed by unique `userId`). -/
structure Profile where
  id : Nat
  userId : Nat
deriving DecidableEq

/-- A row of the prisma `project` table, owned by a user. -/
structure Project where
  id : Nat
  userId : Nat
deriving DecidableEq

/-- A row of the prisma `projectAverage` table, owned by a profile. -/
structure ProjectAverage where
  id : Nat
  profileId : Nat
deriving DecidableEq

/-- The database state the routes act on. -/
structure DB where
  users : List User
  profiles : List Profile
  projects : List Project
  projectAverages : List ProjectAverage
deriving DecidableEq

/-- The empty database. -/
def emptyDB : DB :=
  { users := [], profiles := [], projects := [], projectAverages := [] }

/-- `prisma.user.findUnique({ where: { email } })`. -/
def findUser (db : DB) (email : String) : Option User :=
  db.users.find? (fun u => u.email = email)

/-- The `profile` relation included with the user: the unique profile
row with this `userId`, if any. -/
def findProfile (db : DB) (userId : Nat) : Option Profile :=
  db.profiles.find? (fun p => p.userId = userId)

/-- `prisma.user.update({ where: { email }, data })`: rewrite the row
with this (unique) email through `f`. -/
def updateUser (db : DB) (email : String) (f : User → User) : DB :=
  { db with users := db.users.map (fun u => if u.email = email then f u else u) }

/-- Modelled from the spec: the autoincrement primary key of the
prisma schema (the schema file is not part of the sources); any id
not already used works for the embedding. -/
def nextId (db : DB) : Nat :=
  db.users.foldr (fun u m => max (u.id + 1) m) 1

/-- Number of accounts stored under an email. -/
def countEmail (db : DB) (email : String) : Nat :=
  (db.users.filter (fun u => u.email = email)).length

/-- Embedding of `Math.floor(100000 + Math.random() * 900000)`: the
argument `r` stands for `Math.floor(Math.random() * 900000)`, a
uniform draw from `[0, 900000)`. -/
def genOtpNat (r : Nat) : Nat :=
  100000 + r

/-- The generated OTP as stored and dispatched: `.toString()` of the
drawn number. -/
def otpString (r : Nat) : String :=
  Nat.repr (genOtpNat r)

/-- The JavaScript comparison `new Date() > user.otpExpiry`: against a
`null` expiry the date coerces to its millisecond value and `null`
coerces to `0`. -/
def jsGtNull (now : Nat) : Option Nat → Bool
  | none => decide (0 < now)
  | some t => decide (t < now)

/-- An HTTP response: either a success status with a typed payload or
a failure status with its message. -/
inductive ApiResult (α : Type) where
  | success (status : Nat) (payload : α)
  | failure (status : Nat) (message : String)
deriving DecidableEq

/-- Embedding of the `/signup` route.  `now` is `Date.now()`, `r` the
random draw for the OTP, `emailOk` whether `sendEmail` succeeds (a
failed dispatch is caught and reported as a 500, with the created
account left in place). -/
def signup (db : DB) (now r : Nat) (emailOk : Bool)
    (firstName lastName email password : String) : DB × ApiResult Unit :=
  if validatePassword password = false then
    (db, .failure 400 passwordPolicyMessage)
  else
    match findUser db email with
    | some _ => (db, .failure 400 "Email already registered")
    | none =>
      let user : User :=
        { id := nextId db, email := email, firstName := firstName,
          lastName := lastName, password := bhash password,
          isVerified := false, otp := some (otpString r),
          otpExpiry := some (now + 10 * 60 * 1000) }
      let db1 : DB := { db with users := db.users ++ [user] }
      if emailOk then (db1, .success 201 ())
      else (db1, .failure 500 "Error creating user")

/-- Embedding of the `/verify-otp` route. -/
def verifyOtp (db : DB) (now : Nat) (email code : String) : DB × ApiResult Token :=
  match findUser db email with
  | none => (db, .failure 404 "User not found")
  | some user =>
    if user.otp ≠ some code ∨ jsGtNull now user.otpExpiry = true then
      (db, .failure 400 "Invalid or expired OTP")
    else
      let db1 := updateUser db email
        (fun u => { u with isVerified := true, otp := none, otpExpiry := none })
      (db1, .success 200 { userId := user.id, validityHours := 240 })

/-- Embedding of the `/login` route. -/
def login (db : DB) (email password : String) : DB × ApiResult Token :=
  match findUser db email with
  | none => (db, .failure 404 "User not found")
  | some user =>
    if user.isVerified = false then
      (db, .failure 400 "Please verify your email first")
    else if bcryptCompare password user.password = false then
      (db, .failure 400 "Invalid password")
    else
      (db, .success 200 { userId := user.id, validityHours := 240 })

/-- Embedding of the `/forgot-password` route. -/
def forgotPassword (db : DB) (now r : Nat) (emailOk : Bool)
    (email : String) : DB × ApiResult Unit :=
  match findUser db email with
  | none => (db, .failure 404 "User not found")
  | some _ =>
    let db1 := updateUser db email
      (fun u => { u with otp := some (otpString r),
                         otpExpiry := some (now + 10 * 60 * 1000) })
    if emailOk then (db1, .success 200 ())
    else (db1, .failure 500 "Error processing request")

/-- Embedding of the `/reset-password` route. -/
def resetPassword (db : DB) (now : Nat)
    (email code newPassword : String) : DB × ApiResult Unit :=
  if validatePassword newPassword = false then
    (db, .failure 400 passwordPolicyMessage)
  else
    match findUser db email with
    | none => (db, .failure 404 "User not found")
    | some user =>
      if user.otp ≠ some code ∨ jsGtNull now user.otpExpiry = true then
        (db, .failure 400 "Invalid or expired OTP")
      else
        (updateUser db email
          (fun u => { u with password := bhash newPassword,
                             otp := none, otpExpiry := none }),
         .success 200 ())

/-- The four deletion steps run inside `prisma.$transaction`, in source
order: project averages of the profile (when a profile exists), the
projects of the user, the profile (when it exists), then the user row. -/
def cascadeDelete (db : DB) (u : User) : DB :=
  let db1 :=
    match findProfile db u.id with
    | some pr =>
      { db with projectAverages :=
          db.projectAverages.filter (fun pa => pa.profileId ≠ pr.id) }
    | none => db
  let db2 := { db1 with projects := db1.projects.filter (fun p => p.userId ≠ u.id) }
  let db3 :=
    match findProfile db u.id with
    | some _ => { db2 with profiles := db2.profiles.filter (fun pr => pr.userId ≠ u.id) }
    | none => db2
  { db3 with users := db3.users.filter (fun w => w.id ≠ u.id) }

/-- Embedding of the `/delete-account` route.  `txOk` says whether the
storage transaction commits; Modelled from the spec: the store is the
authority for atomicity, so a failing `prisma.$transaction` rolls every
step back and the route reports a 500 on the unchanged state. -/
def deleteAccount (db : DB) (email password : String) (txOk : Bool) :
    DB × ApiResult Unit :=
  match findUser db email with
  | none => (db, .failure 404 "User not found")
  | some user =>
    if bcryptCompare password user.password = false then
      (db, .failure 400 "Invalid password")
    else if txOk then
      (cascadeDelete db user, .success 200 ())
    else
      (db, .failure 500 "Error deleting account")

/-- The payload of a verified Google id token, restricted to the
fields the route reads. -/
structure GooglePayload where
  email : Option String
  name : Option String
  given_name : Option String
  family_name : Option String
deriving DecidableEq

/-- The identity fields returned by the google-signup route. -/
structure UserView where
  id : Nat
  email : String
  firstName : String
  lastName : String
deriving DecidableEq

/-- Split a character list at every separator character, keeping empty
segments, with the semantics of the JavaScript `String.prototype.split`
with a one-character separator (and of `String.split` from the Lean
core library, which however does not reduce inside the kernel). -/
def splitChars (sep : Char → Bool) : List Char → List (List Char)
  | [] => [[]]
  | c :: rest =>
    let r := splitChars sep rest
    if sep c then [] :: r
    else (c :: r.headD []) :: r.tail

/-- The JavaScript `s.split(sep)` on strings, built on `splitChars`. -/
def jsSplit (s : String) (sep : Char → Bool) : List String :=
  (splitChars sep s.data).map List.asString

/-- The name-derivation fallback chain of `/google-signup`, verbatim
from the source: both `given_name` and `family_name` truthy; else a
truthy `name` split on the space character, first element and the rest
rejoined; else the part of the email before the first `@`. -/
def deriveName (given_name family_name name : Option String)
    (email : String) : String × String :=
  if truthy given_name && truthy family_name then
    (given_name.getD "", family_name.getD "")
  else if truthy name then
    let nameParts := jsSplit (name.getD "") (fun c => c = ' ')
    (jsOrEmpty (nameParts.headD ""),
     jsOrEmpty (" ".intercalate (nameParts.drop 1)))
  else
    ((jsSplit email (fun c => c = '@')).headD "", "")

/-- Embedding of the `/google-signup` route.  `ticket` is the result of
`client.verifyIdToken`: `none` when verification throws (caught as a
500), otherwise the verified payload. -/
def googleSignup (db : DB) (ticket : Option GooglePayload) :
    DB × ApiResult (Token × UserView) :=
  match ticket with
  | none => (db, .failure 500 "Error during Google signup")
  | some payload =>
    if truthy payload.email = false then
      (db, .failure 400 "Invalid Google token or missing email")
    else
      let email := payload.email.getD ""
      match findUser db email with
      | some user =>
        (db, .success 200
          ({ userId := user.id, validityHours := 24 },
           { id := user.id, email := user.email,
             firstName := user.firstName, lastName := user.lastName }))
      | none =>
        let fl := deriveName payload.given_name payload.family_name payload.name email
        let user : User :=
          { id := nextId db, email := email, firstName := fl.1,
            lastName := fl.2, password := "", isVerified := true,
            otp := none, otpExpiry := none }
        let db1 : DB := { db with users := db.users ++ [user] }
        (db1, .success 201
          ({ userId := user.id, validityHours := 24 },
           { id := user.id, email := user.email,
             firstName := user.firstName, lastName := user.lastName }))

/-! ### Helper lemmas -/

theorem jsOrEmpty_eq (s : String) : jsOrEmpty s = s := by
  by_cases h : s = ""
  · simp [jsOrEmpty, h]
  · simp [jsOrEmpty, h]

theorem bhash_ne_empty (pw : String) : bhash pw ≠ "" := by
  intro h
  have h1 := congrArg String.length h
  rw [bhash, String.length_append] at h1
  have h7 : ("$2b$10$" : String).length = 7 := rfl
  have h0 : ("" : String).length = 0 := rfl
  rw [h7, h0] at h1
  omega

theorem bcryptCompare_empty_hash (pw : String) : bcryptCompare pw "" = false := by
  simp only [bcryptCompare, decide_eq_false_iff_not]
  exact fun h => bhash_ne_empty pw h.symm

theorem findUser_mem (db : DB) (e : String) (u : User)
    (h : findUser db e = some u) : u ∈ db.users ∧ u.email = e := by
  unfold findUser at h
  refine ⟨List.mem_of_find?_eq_some h, ?_⟩
  have h2 := List.find?_some h
  simpa using h2

theorem findUser_none (db : DB) (e : String) (h : findUser db e = none) :
    ∀ u ∈ db.users, u.email ≠ e := by
  unfold findUser at h
  rw [List.find?_eq_none] at h
  intro u hu
  simpa using h u hu

/-- Creation branch of the google-signup route, in one equation. -/
def googleNewUser (db : DB) (p : GooglePayload) (e : String) : User :=
  { id := nextId db, email := e,
    firstName := (deriveName p.given_name p.family_name p.name e).1,
    lastName := (deriveName p.given_name p.family_name p.name e).2,
    password := "", isVerified := true, otp := none, otpExpiry := none }

theorem googleSignup_create_eq (db : DB) (p : GooglePayload) (e : String)
    (he : p.email = some e) (hne : e ≠ "") (hnf : findUser db e = none) :
    googleSignup db (some p) =
      ({ db with users := db.users ++ [googleNewUser db p e] },
       .success 201
         ({ userId := (googleNewUser db p e).id, validityHours := 24 },
          { id := (googleNewUser db p e).id, email := e,
            firstName := (googleNewUser db p e).firstName,
            lastName := (googleNewUser db p e).lastName })) := by
  simp only [googleSignup]
  rw [he]
  have ht : truthy (some e) = true := by simp [truthy, hne]
  simp [ht, Option.getD_some, hnf, googleNewUser]

theorem googleSignup_existing_eq (db : DB) (p : GooglePayload) (e : String)
    (u : User) (he : p.email = some e) (hne : e ≠ "")
    (hf : findUser db e = some u) :
    googleSignup db (some p) =
      (db, .success 200
        ({ userId := u.id, validityHours := 24 },
         { id := u.id, email := u.email,
           firstName := u.firstName, lastName := u.lastName })) := by
  simp only [googleSignup]
  rw [he]
  have ht : truthy (some e) = true := by simp [truthy, hne]
  simp [ht, Option.getD_some, hf]

/-- A fixture account for the concrete witnesses: created by signup,
still unverified, with a pending code. -/
def acctA : User :=
  { id := 1, email := "a@x.com", firstName := "A", lastName := "B",
    password := bhash "Abc12!", isVerified := false,
    otp := some "123456", otpExpiry := some 1000 }

/-- A one-account fixture database for the concrete witnesses. -/
def dbA : DB :=
  { users := [acctA], profiles := [], projects := [], projectAverages := [] }

/-! ### C2: unverified accounts can never log in -/

/-- C2: for every stored account with `isVerified = false` and every
submitted password (the correct one included), `login` answers the
unverified failure and returns no session token; since the result is
the same for every password, the verification check is decided before
any credential comparison. -/
theorem C2_login_unverified (db : DB) (email password : String) (u : User)
    (hu : findUser db email = some u) (hv : u.isVerified = false) :
    login db email password = (db, .failure 400 "Please verify your email first") := by
  unfold login
  rw [hu]
  simp [hv]

theorem C2_login_unverified_witness :
    login dbA "a@x.com" "Abc12!" = (dbA, .failure 400 "Please verify your email first") :=
  C2_login_unverified dbA "a@x.com" "Abc12!" acctA (by rfl) (by rfl)

/-! ### C3: federated-only accounts reject every password -/

/-- C3: an account created by the google-signup route stores the empty
credential hash, and `login` on it fails with the invalid-password
failure for every submitted password, never issuing a session token. -/
theorem C3_federated_rejects_password (db : DB) (p : GooglePayload)
    (e : String) (he : p.email = some e) (hne : e ≠ "")
    (hnf : findUser db e = none) :
    ∃ u : User,
      findUser ((googleSignup db (some p)).1) e = some u ∧
      u.password = "" ∧ u.isVerified = true ∧
      ∀ password : String,
        login ((googleSignup db (some p)).1) e password =
          ((googleSignup db (some p)).1, .failure 400 "Invalid password") := by
  rw [googleSignup_create_eq db p e he hne hnf]
  refine ⟨googleNewUser db p e, ?_, rfl, rfl, ?_⟩
  · unfold findUser at hnf ⊢
    simp only [List.find?_append, hnf, Option.none_or]
    simp [googleNewUser]
  · intro password
    have hf : findUser { db with users := db.users ++ [googleNewUser db p e] } e =
        some (googleNewUser db p e) := by
      unfold findUser at hnf ⊢
      simp only [List.find?_append, hnf, Option.none_or]
      simp [googleNewUser]
    unfold login
    rw [hf]
    simp [googleNewUser, bcryptCompare_empty_hash]

theorem C3_federated_rejects_password_witness :
    ∃ u : User,
      findUser ((googleSignup emptyDB
        (some { email := some "g@x.com", name := none,
                given_name := none, family_name := none })).1) "g@x.com" = some u ∧
      u.password = "" ∧ u.isVerified = true ∧
      ∀ password : String,
        login ((googleSignup emptyDB
          (some { email := some "g@x.com", name := none,
                  given_name := none, family_name := none })).1) "g@x.com" password =
          ((googleSignup emptyDB
            (some { email := some "g@x.com", name := none,
                    given_name := none, family_name := none })).1,
           .failure 400 "Invalid password") :=
  C3_federated_rejects_password emptyDB
    { email := some "g@x.com", name := none, given_name := none, family_name := none }
    "g@x.com" rfl (by decide) rfl

/-! ### C6 and C10: the password policy gates signup and reset-password -/

/-- The password rule exactly as the claim words it: at least one
lowercase letter, one uppercase letter, one digit, one symbol of the
allowed set, and length at least 6. -/
def policyClasses (password : String) : Prop :=
  (∃ c ∈ password.data, c.isLower = true) ∧
  (∃ c ∈ password.data, c.isUpper = true) ∧
  (∃ c ∈ password.data, c.isDigit = true) ∧
  (∃ c ∈ password.data, allowedSymbol c = true) ∧
  6 ≤ password.length

instance (password : String) : Decidable (policyClasses password) := by
  unfold policyClasses
  infer_instance

theorem validatePassword_classes (pw : String)
    (h : validatePassword pw = true) : policyClasses pw := by
  unfold validatePassword at h
  simp only [Bool.and_eq_true, List.any_eq_true, decide_eq_true_eq] at h
  obtain ⟨⟨⟨⟨⟨h1, h2⟩, h3⟩, h4⟩, -⟩, h6⟩ := h
  exact ⟨by simpa using h1, by simpa using h2, by simpa using h3, by simpa using h4, h6⟩

/-- C6: every password failing the multi-class/length rule makes both
signup and reset-password answer the validation failure, carrying the
whole rule as the one fixed message, with the store left unchanged. -/
theorem C6_policy_rejection (db : DB) (now r : Nat) (emailOk : Bool)
    (firstName lastName email code pw : String)
    (h : ¬ policyClasses pw) :
    signup db now r emailOk firstName lastName email pw =
      (db, .failure 400 passwordPolicyMessage) ∧
    resetPassword db now email code pw =
      (db, .failure 400 passwordPolicyMessage) := by
  have hv : validatePassword pw = false := by
    cases hvp : validatePassword pw
    · rfl
    · exact absurd (validatePassword_classes pw hvp) h
  exact ⟨by simp [signup, hv], by simp [resetPassword, hv]⟩

theorem C6_policy_rejection_witness :
    signup dbA 0 0 true "A" "B" "b@x.com" "short" =
      (dbA, .failure 400 passwordPolicyMessage) ∧
    resetPassword dbA 0 "a@x.com" "123456" "short" =
      (dbA, .failure 400 passwordPolicyMessage) :=
  C6_policy_rejection dbA 0 0 true "A" "B" "b@x.com" "123456" "short" (by decide)

/-- C10: a password containing any character outside the alphabet of
letters, digits and the symbols `@ $ ! % * ? &` is rejected by signup
and reset-password with the validation failure, whatever its other
characters are, and the store is left unchanged. -/
theorem C10_alphabet_restriction (db : DB) (now r : Nat) (emailOk : Bool)
    (firstName lastName email code pw : String) (c : Char)
    (hc : c ∈ pw.data) (hbad : allowedChar c = false) :
    signup db now r emailOk firstName lastName email pw =
      (db, .failure 400 passwordPolicyMessage) ∧
    resetPassword db now email code pw =
      (db, .failure 400 passwordPolicyMessage) := by
  have hall : pw.data.all allowedChar = false := by
    rw [List.all_eq_false]
    exact ⟨c, hc, by simp [hbad]⟩
  have hv : validatePassword pw = false := by
    unfold validatePassword
    simp [hall]
  exact ⟨by simp [signup, hv], by simp [resetPassword, hv]⟩

theorem C10_alphabet_restriction_witness :
    signup dbA 0 0 true "A" "B" "b@x.com" "Abc12!#" =
      (dbA, .failure 400 passwordPolicyMessage) ∧
    resetPassword dbA 0 "a@x.com" "123456" "Abc12!#" =
      (dbA, .failure 400 passwordPolicyMessage) :=
  C10_alphabet_restriction dbA 0 0 true "A" "B" "b@x.com" "123456" "Abc12!#" '#'
    (by decide) (by decide)

/-! ### C5: the collapsed invalid-or-expired OTP failure -/

theorem verifyOtp_found (db : DB) (now : Nat) (email code : String) (u : User)
    (hu : findUser db email = some u) :
    verifyOtp db now email code =
      if u.otp ≠ some code ∨ jsGtNull now u.otpExpiry = true then
        (db, .failure 400 "Invalid or expired OTP")
      else
        (updateUser db email
          (fun v => { v with isVerified := true, otp := none, otpExpiry := none }),
         .success 200 { userId := u.id, validityHours := 240 }) := by
  simp only [verifyOtp]
  rw [hu]

theorem resetPassword_found (db : DB) (now : Nat)
    (email code newPassword : String) (u : User)
    (hv : validatePassword newPassword = true)
    (hu : findUser db email = some u) :
    resetPassword db now email code newPassword =
      if u.otp ≠ some code ∨ jsGtNull now u.otpExpiry = true then
        (db, .failure 400 "Invalid or expired OTP")
      else
        (updateUser db email
          (fun v => { v with password := bhash newPassword,
                             otp := none, otpExpiry := none }),
         .success 200 ()) := by
  simp only [resetPassword, hv]
  rw [if_neg (by simp : ¬ (true = false))]
  rw [hu]

/-- C5: over every stored account whose pending fields are paired, both
verify-otp and reset-password fail exactly when the stored code differs
from the supplied one or the current time is strictly past the stored
expiry, and the failure is the one 400 response with the one generic
message in both cases, so an expired-but-correct code is answered
identically to a wrong code. -/
theorem C5_invalid_otp_condition (db : DB) (now : Nat)
    (email code newPassword : String) (u : User)
    (hu : findUser db email = some u)
    (hpair : u.otp.isSome = u.otpExpiry.isSome)
    (hv : validatePassword newPassword = true) :
    (((verifyOtp db now email code).2 = .failure 400 "Invalid or expired OTP") ↔
      (u.otp ≠ some code ∨ ∃ t, u.otpExpiry = some t ∧ t < now)) ∧
    (((resetPassword db now email code newPassword).2 =
        .failure 400 "Invalid or expired OTP") ↔
      (u.otp ≠ some code ∨ ∃ t, u.otpExpiry = some t ∧ t < now)) := by
  have hcond : (u.otp ≠ some code ∨ jsGtNull now u.otpExpiry = true) ↔
      (u.otp ≠ some code ∨ ∃ t, u.otpExpiry = some t ∧ t < now) := by
    constructor
    · rintro (h | h)
      · exact Or.inl h
      · cases he : u.otpExpiry with
        | none =>
          left
          intro hsome
          rw [hsome, he] at hpair
          simp at hpair
        | some t =>
          right
          rw [he] at h
          exact ⟨t, rfl, by simpa [jsGtNull] using h⟩
    · rintro (h | ⟨t, ht, hlt⟩)
      · exact Or.inl h
      · right
        rw [ht]
        simpa [jsGtNull] using hlt
  rw [verifyOtp_found db now email code u hu,
      resetPassword_found db now email code newPassword u hv hu]
  by_cases h : u.otp ≠ some code ∨ jsGtNull now u.otpExpiry = true
  · rw [if_pos h, if_pos h]
    simpa using hcond.mp h
  · rw [if_neg h, if_neg h]
    have hns : ¬ (u.otp ≠ some code ∨ ∃ t, u.otpExpiry = some t ∧ t < now) :=
      fun hs => h (hcond.mpr hs)
    exact ⟨⟨fun hx => absurd hx (by simp), fun hs => absurd hs hns⟩,
           ⟨fun hx => absurd hx (by simp), fun hs => absurd hs hns⟩⟩

theorem C5_invalid_otp_condition_witness :
    ((verifyOtp dbA 2000 "a@x.com" "123456").2 =
        .failure 400 "Invalid or expired OTP") ↔
      (acctA.otp ≠ some "123456" ∨ ∃ t, acctA.otpExpiry = some t ∧ t < 2000) :=
  (C5_invalid_otp_condition dbA 2000 "a@x.com" "123456" "Abc12!" acctA
    rfl rfl (by decide)).1

/-! ### C4: the deletion cascade is all-or-nothing -/

theorem cascadeDelete_users (db : DB) (u : User) :
    ∀ w ∈ (cascadeDelete db u).users, w.id ≠ u.id := by
  intro w hw
  unfold cascadeDelete at hw
  cases hpr : findProfile db u.id <;>
    simp [hpr, List.mem_filter] at hw <;> exact hw.2

theorem cascadeDelete_profiles (db : DB) (u : User) :
    ∀ pr ∈ (cascadeDelete db u).profiles, pr.userId ≠ u.id := by
  intro pr hpr
  unfold cascadeDelete at hpr
  cases hf : findProfile db u.id with
  | none =>
    simp [hf] at hpr
    unfold findProfile at hf
    rw [List.find?_eq_none] at hf
    simpa using hf pr hpr
  | some p0 =>
    simp [hf, List.mem_filter] at hpr
    exact hpr.2

theorem cascadeDelete_projects (db : DB) (u : User) :
    ∀ pj ∈ (cascadeDelete db u).projects, pj.userId ≠ u.id := by
  intro pj hpj
  unfold cascadeDelete at hpj
  cases hf : findProfile db u.id <;>
    simp [hf, List.mem_filter] at hpj <;> exact hpj.2

theorem cascadeDelete_projectAverages (db : DB) (u : User) :
    ∀ pa ∈ (cascadeDelete db u).projectAverages,
      ∀ pr, findProfile db u.id = some pr → pa.profileId ≠ pr.id := by
  intro pa hpa pr hpr
  unfold cascadeDelete at hpa
  rw [hpr] at hpa
  simp [List.mem_filter] at hpa
  exact hpa.2

/-- C4: with the account found and the password matching, a committing
delete-account removes the account row and leaves zero dependent
profile, project and project-average rows for it, while a failing
transaction leaves the whole store exactly as before the call and
reports a 500. -/
theorem C4_delete_account_atomic (db : DB) (email password : String)
    (txOk : Bool) (u : User) (hu : findUser db email = some u)
    (hpw : bcryptCompare password u.password = true) :
    (txOk = true →
      deleteAccount db email password txOk =
        (cascadeDelete db u, .success 200 ()) ∧
      (∀ w ∈ (cascadeDelete db u).users, w.id ≠ u.id) ∧
      (∀ pr ∈ (cascadeDelete db u).profiles, pr.userId ≠ u.id) ∧
      (∀ pj ∈ (cascadeDelete db u).projects, pj.userId ≠ u.id) ∧
      (∀ pa ∈ (cascadeDelete db u).projectAverages,
        ∀ pr, findProfile db u.id = some pr → pa.profileId ≠ pr.id)) ∧
    (txOk = false →
      deleteAccount db email password txOk =
        (db, .failure 500 "Error deleting account")) := by
  have hshape : deleteAccount db email password txOk =
      if txOk then (cascadeDelete db u, .success 200 ())
      else (db, .failure 500 "Error deleting account") := by
    simp only [deleteAccount]
    rw [hu]
    simp [hpw]
  constructor
  · intro ht
    subst ht
    simp only [if_pos rfl] at hshape
    exact ⟨hshape, cascadeDelete_users db u,
           cascadeDelete_profiles db u, cascadeDelete_projects db u,
           cascadeDelete_projectAverages db u⟩
  · intro ht
    subst ht
    simp at hshape
    exact hshape

/-- Fixture for the deletion witness: a verified account owning a
profile, a project and a project average. -/
def acctV : User :=
  { id := 2, email := "v@x.com", firstName := "V", lastName := "W",
    password := bhash "Abc12!", isVerified := true,
    otp := none, otpExpiry := none }

/-- Fixture database for the deletion witness. -/
def dbV : DB :=
  { users := [acctV], profiles := [{ id := 7, userId := 2 }],
    projects := [{ id := 3, userId := 2 }],
    projectAverages := [{ id := 9, profileId := 7 }] }

theorem C4_delete_account_atomic_witness :
    deleteAccount dbV "v@x.com" "Abc12!" true =
      (cascadeDelete dbV acctV, .success 200 ()) ∧
    (∀ w ∈ (cascadeDelete dbV acctV).users, w.id ≠ acctV.id) ∧
    (∀ pr ∈ (cascadeDelete dbV acctV).profiles, pr.userId ≠ acctV.id) ∧
    (∀ pj ∈ (cascadeDelete dbV acctV).projects, pj.userId ≠ acctV.id) ∧
    (∀ pa ∈ (cascadeDelete dbV acctV).projectAverages,
      ∀ pr, findProfile dbV acctV.id = some pr → pa.profileId ≠ pr.id) :=
  (C4_delete_account_atomic dbV "v@x.com" "Abc12!" true acctV rfl (by decide)).1 rfl

/-! ### C1: what the OTP generator actually draws -/

theorem toDigitsCore_exact_length (e : Nat) :
    ∀ (f n : Nat) (l : List Char), 10 ^ e ≤ n → n < 10 ^ (e + 1) → e + 1 ≤ f →
      (Nat.toDigitsCore 10 f n l).length = e + 1 + l.length := by
  induction e with
  | zero =>
    intro f n l h1 h2 hf
    match f, hf with
    | f + 1, _ =>
      have hdiv : n / 10 = 0 := Nat.div_eq_of_lt (by simpa using h2)
      simp [Nat.toDigitsCore, hdiv]
      omega
  | succ e ih =>
    intro f n l h1 h2 hf
    match f, hf with
    | f + 1, hf =>
      have h10 : (0:Nat) < 10 := by norm_num
      have hlow : 10 ^ e ≤ n / 10 := by
        have : 10 ^ (e + 1) / 10 ≤ n / 10 := Nat.div_le_div_right h1
        simpa [Nat.pow_succ, Nat.mul_div_cancel _ h10] using this
      have hhigh : n / 10 < 10 ^ (e + 1) := by
        rw [Nat.div_lt_iff_lt_mul h10]
        calc n < 10 ^ (e + 1 + 1) := h2
        _ = 10 ^ (e + 1) * 10 := by rw [Nat.pow_succ]
      have hne : ¬ (n / 10 = 0) := by
        have : (1:Nat) ≤ 10 ^ e := Nat.one_le_pow _ _ h10
        omega
      have hstep : Nat.toDigitsCore 10 (f + 1) n l =
          Nat.toDigitsCore 10 f (n / 10) (Nat.digitChar (n % 10) :: l) := by
        simp [Nat.toDigitsCore, hne]
      rw [hstep, ih f (n / 10) (Nat.digitChar (n % 10) :: l) hlow hhigh (by omega)]
      simp
      omega

theorem repr_length_six (n : Nat) (h1 : 100000 ≤ n) (h2 : n ≤ 999999) :
    (Nat.repr n).length = 6 := by
  have hlen : (Nat.toDigitsCore 10 (n + 1) n []).length = 5 + 1 + ([] : List Char).length := by
    apply toDigitsCore_exact_length 5 (n + 1) n []
    · simpa using h1
    · have : (10:Nat) ^ (5 + 1) = 1000000 := by norm_num
      omega
    · omega
  simp only [Nat.repr, Nat.toDigits, String.length, List.asString]
  simpa using hlen

theorem digitChar_isDigit (m : Nat) (h : m < 10) :
    (Nat.digitChar m).isDigit = true := by
  have hall : ∀ k : Fin 10, (Nat.digitChar k.val).isDigit = true := by decide
  exact hall ⟨m, h⟩

theorem toDigitsCore_all_digits :
    ∀ (f n : Nat) (l : List Char), (∀ c ∈ l, c.isDigit = true) →
      ∀ c ∈ Nat.toDigitsCore 10 f n l, c.isDigit = true := by
  intro f
  induction f with
  | zero =>
    intro n l hl
    simpa [Nat.toDigitsCore] using hl
  | succ f ih =>
    intro n l hl
    have hd : (Nat.digitChar (n % 10)).isDigit = true :=
      digitChar_isDigit _ (Nat.mod_lt _ (by norm_num))
    have hcons : ∀ c ∈ Nat.digitChar (n % 10) :: l, c.isDigit = true := by
      intro c hc
      rcases List.mem_cons.mp hc with hc | hc
      · rw [hc]; exact hd
      · exact hl c hc
    intro c hc
    simp only [Nat.toDigitsCore] at hc
    by_cases hz : n / 10 = 0
    · rw [if_pos hz] at hc
      exact hcons c hc
    · rw [if_neg hz] at hc
      exact ih (n / 10) (Nat.digitChar (n % 10) :: l) hcons c hc

theorem repr_all_digits (n : Nat) :
    ∀ c ∈ (Nat.repr n).data, c.isDigit = true := by
  intro c hc
  simp only [Nat.repr, Nat.toDigits, List.asString] at hc
  exact toDigitsCore_all_digits (n + 1) n [] (by simp) c hc

/-- C1 counterexample: the claim says the code is drawn from the full
range 000000 to 999999; but the code value 0 (which would print as the
six-digit string with leading zeros) is never produced by
`Math.floor(100000 + Math.random() * 900000)`, whatever the random
draw below 900000 is. -/
theorem C1_counterexample : ¬ ∃ r, r < 900000 ∧ genOtpNat r = 0 := by
  rintro ⟨r, -, h⟩
  simp [genOtpNat] at h

/-- C1 amended: for every successful code issuance by signup and by
forgot-password, the generated one-time code is a 6-digit numeric
string drawn uniformly at random from the range 100000 to 999999 (a
leading zero never occurs), and its paired expiry is the current time
plus 10 minutes: the drawn value lies in that range, its string is six
digit characters, signup persists exactly this code and expiry on the
created account, forgot-password persists them on the stored account,
and the draw is a bijection onto 100000 to 999999 (so a uniform draw
yields a uniform code). -/
theorem C1_otp_generation (now r : Nat) (hr : r < 900000) :
    (100000 ≤ genOtpNat r ∧ genOtpNat r ≤ 999999) ∧
    (otpString r).length = 6 ∧
    (∀ c ∈ (otpString r).data, c.isDigit = true) ∧
    (∀ db emailOk firstName lastName email pw,
      validatePassword pw = true → findUser db email = none →
      (signup db now r emailOk firstName lastName email pw).1.users =
        db.users ++
          [{ id := nextId db, email := email, firstName := firstName,
             lastName := lastName, password := bhash pw, isVerified := false,
             otp := some (otpString r),
             otpExpiry := some (now + 10 * 60 * 1000) }]) ∧
    (∀ db emailOk email u, findUser db email = some u →
      ∀ w ∈ (forgotPassword db now r emailOk email).1.users, w.email = email →
        w.otp = some (otpString r) ∧
        w.otpExpiry = some (now + 10 * 60 * 1000)) ∧
    (∀ r1 r2 : Nat, genOtpNat r1 = genOtpNat r2 → r1 = r2) ∧
    (∀ v : Nat, 100000 ≤ v → v ≤ 999999 → ∃ r0, r0 < 900000 ∧ genOtpNat r0 = v) := by
  have hrange : 100000 ≤ genOtpNat r ∧ genOtpNat r ≤ 999999 := by
    unfold genOtpNat
    omega
  refine ⟨hrange, repr_length_six _ hrange.1 hrange.2, repr_all_digits _,
          ?_, ?_, ?_, ?_⟩
  · intro db emailOk firstName lastName email pw hv hnf
    simp only [signup, hv]
    rw [if_neg (by simp : ¬ (true = false))]
    rw [hnf]
    cases emailOk <;> simp
  · intro db emailOk email u hu w hw hwe
    simp only [forgotPassword] at hw
    rw [hu] at hw
    have hw2 : w ∈ (updateUser db email
        (fun v => { v with otp := some (otpString r),
                           otpExpiry := some (now + 10 * 60 * 1000) })).users := by
      cases emailOk <;> simpa using hw
    unfold updateUser at hw2
    rcases List.mem_map.mp hw2 with ⟨v, hv, hveq⟩
    by_cases he : v.email = email
    · rw [if_pos he] at hveq
      rw [← hveq]
      exact ⟨rfl, rfl⟩
    · rw [if_neg he] at hveq
      rw [← hveq] at hwe
      exact absurd hwe he
  · intro r1 r2 h
    unfold genOtpNat at h
    omega
  · intro v h1 h2
    exact ⟨v - 100000, by omega, by unfold genOtpNat; omega⟩

theorem C1_otp_generation_witness :
    100000 ≤ genOtpNat 12345 ∧ genOtpNat 12345 ≤ 999999 :=
  (C1_otp_generation 0 12345 (by norm_num)).1

/-! ### C7: the pending-code fields travel together -/

/-- One request of one of the four OTP-lifecycle routes, with arbitrary
request data and collaborator behaviour. -/
inductive Step : DB → DB → Prop where
  | ofSignup (db : DB) (now r : Nat) (emailOk : Bool)
      (firstName lastName email password : String) :
      Step db (signup db now r emailOk firstName lastName email password).1
  | ofVerifyOtp (db : DB) (now : Nat) (email code : String) :
      Step db (verifyOtp db now email code).1
  | ofForgotPassword (db : DB) (now r : Nat) (emailOk : Bool) (email : String) :
      Step db (forgotPassword db now r emailOk email).1
  | ofResetPassword (db : DB) (now : Nat) (email code newPassword : String) :
      Step db (resetPassword db now email code newPassword).1

/-- Database states reachable from the empty store through those four
routes. -/
def Reachable (db : DB) : Prop :=
  Relation.ReflTransGen Step emptyDB db

theorem updateUser_mem (db : DB) (email : String) (f : User → User)
    (w : User) (hw : w ∈ (updateUser db email f).users) :
    (∃ v ∈ db.users, w = f v) ∨ w ∈ db.users := by
  unfold updateUser at hw
  rcases List.mem_map.mp hw with ⟨v, hv, hveq⟩
  by_cases he : v.email = email
  · rw [if_pos he] at hveq
    exact Or.inl ⟨v, hv, hveq.symm⟩
  · rw [if_neg he] at hveq
    exact Or.inr (hveq ▸ hv)

theorem signup_paired (db : DB) (now r : Nat) (emailOk : Bool)
    (fn ln em pw : String)
    (hdb : ∀ u ∈ db.users, u.otp.isSome = u.otpExpiry.isSome) :
    ∀ u ∈ (signup db now r emailOk fn ln em pw).1.users,
      u.otp.isSome = u.otpExpiry.isSome := by
  intro u hu
  simp only [signup] at hu
  split at hu
  · exact hdb u hu
  · split at hu
    · exact hdb u hu
    · split at hu <;>
      · simp at hu
        rcases hu with hu | hu
        · exact hdb u hu
        · simp [hu]

theorem verifyOtp_paired (db : DB) (now : Nat) (em code : String)
    (hdb : ∀ u ∈ db.users, u.otp.isSome = u.otpExpiry.isSome) :
    ∀ u ∈ (verifyOtp db now em code).1.users,
      u.otp.isSome = u.otpExpiry.isSome := by
  intro u hu
  simp only [verifyOtp] at hu
  split at hu
  · exact hdb u hu
  · split at hu
    · exact hdb u hu
    · rcases updateUser_mem db em _ u hu with ⟨v, hv, rfl⟩ | h
      · rfl
      · exact hdb u h

theorem forgotPassword_paired (db : DB) (now r : Nat) (emailOk : Bool)
    (em : String)
    (hdb : ∀ u ∈ db.users, u.otp.isSome = u.otpExpiry.isSome) :
    ∀ u ∈ (forgotPassword db now r emailOk em).1.users,
      u.otp.isSome = u.otpExpiry.isSome := by
  intro u hu
  simp only [forgotPassword] at hu
  split at hu
  · exact hdb u hu
  · split at hu <;>
    · rcases updateUser_mem db em _ u hu with ⟨v, hv, rfl⟩ | h
      · rfl
      · exact hdb u h

theorem resetPassword_paired (db : DB) (now : Nat) (em code pw : String)
    (hdb : ∀ u ∈ db.users, u.otp.isSome = u.otpExpiry.isSome) :
    ∀ u ∈ (resetPassword db now em code pw).1.users,
      u.otp.isSome = u.otpExpiry.isSome := by
  intro u hu
  simp only [resetPassword] at hu
  split at hu
  · exact hdb u hu
  · split at hu
    · exact hdb u hu
    · split at hu
      · exact hdb u hu
      · rcases updateUser_mem db em _ u hu with ⟨v, hv, rfl⟩ | h
        · rfl
        · exact hdb u h

/-- C7: every database state reachable from the empty store through
signup, verify-otp, forgot-password and reset-password only holds
accounts whose `otp` and `otpExpiry` are both null or both set — never
exactly one of the two. -/
theorem C7_pending_fields_paired (db : DB) (h : Reachable db) :
    ∀ u ∈ db.users, u.otp.isSome = u.otpExpiry.isSome := by
  unfold Reachable at h
  induction h with
  | refl =>
    intro u hu
    simp [emptyDB] at hu
  | tail hr hstep ih =>
    cases hstep with
    | ofSignup now r emailOk fn ln em pw =>
      exact signup_paired _ now r emailOk fn ln em pw ih
    | ofVerifyOtp now em code =>
      exact verifyOtp_paired _ now em code ih
    | ofForgotPassword now r emailOk em =>
      exact forgotPassword_paired _ now r emailOk em ih
    | ofResetPassword now em code pw =>
      exact resetPassword_paired _ now em code pw ih

/-- The store reached by one concrete signup, for the C7 witness. -/
def dbSigned : DB :=
  (signup emptyDB 0 0 true "A" "B" "s@x.com" "Abc12!").1

theorem C7_pending_fields_paired_witness :
    (dbSigned.users.headD acctA).otp.isSome =
      (dbSigned.users.headD acctA).otpExpiry.isSome :=
  C7_pending_fields_paired dbSigned
    (Relation.ReflTransGen.single
      (Step.ofSignup emptyDB 0 0 true "A" "B" "s@x.com" "Abc12!"))
    (dbSigned.users.headD acctA) (by decide)

/-! ### C8: federated sign-in never duplicates an account -/

theorem countEmail_pos_of_find (db : DB) (e : String) (u : User)
    (h : findUser db e = some u) : 1 ≤ countEmail db e := by
  unfold countEmail
  obtain ⟨hm, he⟩ := findUser_mem db e u h
  have hmem : u ∈ db.users.filter (fun v => v.email = e) :=
    List.mem_filter.mpr ⟨hm, by simp [he]⟩
  exact List.length_pos.mpr (List.ne_nil_of_mem hmem)

theorem countEmail_zero_of_none (db : DB) (e : String)
    (h : findUser db e = none) : countEmail db e = 0 := by
  unfold countEmail
  rw [List.length_eq_zero, List.filter_eq_nil_iff]
  intro v hv
  simpa using findUser_none db e h v hv

/-- C8: two federated sign-ins whose verified payloads carry the same
email create at most one account: after the first call exactly one
account holds that email, and the second call leaves the store
untouched and answers with that stored account's identity fields plus
a session token. -/
theorem C8_federated_idempotent (db : DB) (p1 p2 : GooglePayload)
    (e : String) (h1 : p1.email = some e) (h2 : p2.email = some e)
    (hne : e ≠ "") (hu : countEmail db e ≤ 1) :
    countEmail (googleSignup db (some p1)).1 e = 1 ∧
    (googleSignup (googleSignup db (some p1)).1 (some p2)).1 =
      (googleSignup db (some p1)).1 ∧
    ∃ u : User,
      findUser (googleSignup db (some p1)).1 e = some u ∧
      (googleSignup (googleSignup db (some p1)).1 (some p2)).2 =
        .success 200
          ({ userId := u.id, validityHours := 24 },
           { id := u.id, email := u.email,
             firstName := u.firstName, lastName := u.lastName }) := by
  cases hf : findUser db e with
  | some u0 =>
    have hc : countEmail db e = 1 :=
      le_antisymm hu (countEmail_pos_of_find db e u0 hf)
    rw [googleSignup_existing_eq db p1 e u0 h1 hne hf]
    simp only
    rw [googleSignup_existing_eq db p2 e u0 h2 hne hf]
    exact ⟨hc, rfl, u0, hf, rfl⟩
  | none =>
    rw [googleSignup_create_eq db p1 e h1 hne hf]
    simp only
    have hf1 : findUser { db with users := db.users ++ [googleNewUser db p1 e] } e =
        some (googleNewUser db p1 e) := by
      unfold findUser at hf ⊢
      simp only [List.find?_append, hf, Option.none_or]
      simp [googleNewUser]
    have hc : countEmail { db with users := db.users ++ [googleNewUser db p1 e] } e = 1 := by
      have h0 : countEmail db e = 0 := countEmail_zero_of_none db e hf
      unfold countEmail at h0 ⊢
      simp only [List.filter_append, List.length_append, h0]
      simp [googleNewUser]
    rw [googleSignup_existing_eq _ p2 e (googleNewUser db p1 e) h2 hne hf1]
    exact ⟨hc, rfl, googleNewUser db p1 e, hf1, rfl⟩

theorem C8_federated_idempotent_witness :
    countEmail (googleSignup emptyDB
      (some { email := some "g2@x.com", name := some "G Two",
              given_name := none, family_name := none })).1 "g2@x.com" = 1 :=
  (C8_federated_idempotent emptyDB
    { email := some "g2@x.com", name := some "G Two",
      given_name := none, family_name := none }
    { email := some "g2@x.com", name := some "G Two",
      given_name := none, family_name := none }
    "g2@x.com" rfl rfl (by decide) (by decide)).1

/-! ### C9: how the federated account names are derived -/

/-- Formalisation of claim C9 exactly as worded: prefer the verifier
given/family fields, otherwise split the full display name on
whitespace into tokens, first token as firstName and the remaining
tokens as lastName, otherwise fall back to the local part of the
email with an empty lastName. -/
def deriveNameClaim (given_name family_name name : Option String)
    (email : String) : String × String :=
  if truthy given_name && truthy family_name then
    (given_name.getD "", family_name.getD "")
  else if truthy name then
    let toks := (jsSplit (name.getD "") (fun c => c.isWhitespace)).filter
      (fun t => t ≠ "")
    (toks.headD "", " ".intercalate (toks.drop 1))
  else
    ((jsSplit email (fun c => c = '@')).headD "", "")

/-- The amended derivation rule: branch (b) splits the display name on
the space character only, taking the segment before the first space as
firstName and the remaining segments rejoined by single spaces as
lastName. -/
def deriveNameAmended (given_name family_name name : Option String)
    (email : String) : String × String :=
  if truthy given_name && truthy family_name then
    (given_name.getD "", family_name.getD "")
  else if truthy name then
    let parts := jsSplit (name.getD "") (fun c => c = ' ')
    (parts.headD "", " ".intercalate (parts.drop 1))
  else
    ((jsSplit email (fun c => c = '@')).headD "", "")

theorem deriveName_eq_amended (g f n : Option String) (e : String) :
    deriveName g f n e = deriveNameAmended g f n e := by
  by_cases h1 : (truthy g && truthy f) = true
  · simp [deriveName, deriveNameAmended, h1]
  · by_cases h2 : truthy n = true
    · simp [deriveName, deriveNameAmended, h1, h2, jsOrEmpty_eq]
    · simp [deriveName, deriveNameAmended, h1, h2]

/-- C9 counterexample: with no given/family fields and the display
name "A<tab>B", splitting on whitespace as the claim states would give
firstName "A" and lastName "B", but the account the route creates
stores the whole string as firstName with an empty lastName, because
the code splits on the space character only. -/
theorem C9_counterexample :
    (googleSignup emptyDB
      (some { email := some "a@x.com", name := some "A\tB",
              given_name := none, family_name := none })).1.users.map
        (fun u => (u.firstName, u.lastName)) = [("A\tB", "")] ∧
    deriveNameClaim none none (some "A\tB") "a@x.com" = ("A", "B") ∧
    ("A\tB", ("" : String)) ≠ ("A", "B") := by
  refine ⟨by decide, by decide, by decide⟩

/-- C9 amended: when the federated route creates an account, its
firstName/lastName come, in order of preference, from (a) both
verifier given/family fields when both are non-empty, else (b) the
display name split on the space character, first segment as firstName
and the rest rejoined with spaces as lastName, else (c) the local part
of the email as firstName with an empty lastName. -/
theorem C9_name_derivation (db : DB) (p : GooglePayload) (e : String)
    (he : p.email = some e) (hne : e ≠ "") (hnf : findUser db e = none) :
    ∃ u : User,
      (googleSignup db (some p)).1.users = db.users ++ [u] ∧
      (u.firstName, u.lastName) =
        deriveNameAmended p.given_name p.family_name p.name e := by
  rw [googleSignup_create_eq db p e he hne hnf]
  refine ⟨googleNewUser db p e, by simp, ?_⟩
  show ((deriveName p.given_name p.family_name p.name e).1,
        (deriveName p.given_name p.family_name p.name e).2) = _
  rw [deriveName_eq_amended]

theorem C9_name_derivation_witness :
    ∃ u : User,
      (googleSignup emptyDB
        (some { email := some "j.q@x.com", name := none,
                given_name := none, family_name := none })).1.users =
        emptyDB.users ++ [u] ∧
      (u.firstName, u.lastName) =
        deriveNameAmended none none none "j.q@x.com" :=
  C9_name_derivation emptyDB
    { email := some "j.q@x.com", name := none,
      given_name := none, family_name := none }
    "j.q@x.com" rfl (by decide) rfl

end Wynngrid
